import Mathlib

/-!
Shallow embedding of the Neron MCP server (src/config.py, src/db_connector.py,
src/server.py, src/http_server.py, src/fake_oauth_server.py).

External collaborators (the PostgreSQL store, the psycopg2 connection pool and
the Voyage AI embedding client) are modelled as oracles carried in a `World`
structure; each stateful operation returns the list of collaborator effects it
performed together with its result, so that theorems can speak about which
external calls were or were not attempted.
-/

namespace NeronMCP

/-- Configuration values (src/config.py). Only the fields the verified
operations read are modelled. -/
structure Config where
  mcpAuthToken : String
  serverDomain : String
  embeddingDimension : Nat
  dbMinConnections : Nat
  dbMaxConnections : Nat
deriving DecidableEq

/-- Python exception values as they matter to the embedded code: the
constructor records the exception class, `chained` records
`raise RuntimeError(msg) from cause`. -/
inductive Err where
  | keyError (key : String)
  | runtimeError (msg : String)
  | poolError (msg : String)
  | valueError (msg : String)
  | dbError (msg : String)
  | embeddingError (msg : String)
  | attributeError (msg : String)
  | chained (msg : String) (cause : Err)
deriving DecidableEq

/-- Python `str(e)`: the message of the exception itself (the cause of a
chained exception is not part of `str`). A `KeyError` renders its key in
single quotes. -/
def errStr : Err → String
  | .keyError k => "\x27" ++ k ++ "\x27"
  | .runtimeError m => m
  | .poolError m => m
  | .valueError m => m
  | .dbError m => m
  | .embeddingError m => m
  | .attributeError m => m
  | .chained m _ => m

/-- Follow the `__cause__` chain of a raised exception to its root. -/
def Err.rootCause : Err → Err
  | .chained _ e => e.rootCause
  | e => e

/-- A calendar date, as produced by `datetime.date`. -/
structure DateYMD where
  year : Nat
  month : Nat
  day : Nat
deriving DecidableEq

/-- A point in time, as stored in the `timestamp` column. -/
structure Timestamp where
  year : Nat
  month : Nat
  day : Nat
  hour : Nat
  minute : Nat
  second : Nat
deriving DecidableEq

/-- The SQL `DATE(timestamp)` function: the date component of a timestamp. -/
def Timestamp.date (t : Timestamp) : DateYMD :=
  ⟨t.year, t.month, t.day⟩

/-- Chronological comparison key: timestamps compare lexicographically by
their components. -/
def Timestamp.key (t : Timestamp) : List Nat :=
  [t.year, t.month, t.day, t.hour, t.minute, t.second]

/-- A row of the `neron` table as selected by the notes queries:
`(id, timestamp, text)`. -/
structure NoteRow where
  id : Int
  timestamp : Timestamp
  text : String
deriving DecidableEq

/-- A row returned by the similarity search:
`(id, text, timestamp, similarity)`. -/
structure SearchRow where
  id : Int
  text : String
  timestamp : Timestamp
  similarity : ℚ
deriving DecidableEq

/-- The `ORDER BY timestamp ASC` comparison on note rows. -/
def rowLeAsc (a b : NoteRow) : Bool :=
  decide (a.timestamp.key ≤ b.timestamp.key)

/-- The `ORDER BY timestamp DESC` comparison on note rows. -/
def rowLeDesc (a b : NoteRow) : Bool :=
  decide (b.timestamp.key ≤ a.timestamp.key)

/-- Denotation of the SQL issued by `get_notes_by_day`:
`SELECT id, timestamp, text FROM neron WHERE DATE(timestamp) = %s
ORDER BY timestamp ASC`. -/
def notesByDayQuery (table : List NoteRow) (d : DateYMD) : List NoteRow :=
  (table.filter (fun r => decide (r.timestamp.date = d))).mergeSort rowLeAsc

/-- Denotation of the SQL issued by `get_all_notes`:
`SELECT id, timestamp, text FROM neron ORDER BY timestamp DESC`. -/
def allNotesQuery (table : List NoteRow) : List NoteRow :=
  table.mergeSort rowLeDesc

/-- Observable collaborator effects of an operation: a call to the external
embedding service, taking a connection from the pool, running a business
query on a connection, and giving a connection back (`close = true` means the
connection is closed instead of being reused). -/
inductive Effect where
  | embedCall (queryText : String)
  | acquire (conn : Nat)
  | query (conn : Nat)
  | release (conn : Nat) (close : Bool)
deriving DecidableEq

/-- Connections taken from the pool, in order. -/
def acquiredIds (tr : List Effect) : List Nat :=
  tr.filterMap (fun e => match e with | .acquire c => some c | _ => none)

/-- Connections given back to the pool (with any close flag), in order. -/
def releasedIds (tr : List Effect) : List Nat :=
  tr.filterMap (fun e => match e with | .release c _ => some c | _ => none)

/-- Connections given back to the pool with `close = true`, in order. -/
def closedReleasedIds (tr : List Effect) : List Nat :=
  tr.filterMap (fun e => match e with | .release c true => some c | _ => none)

/-- Texts sent to the external embedding service, in order. -/
def embedCalls (tr : List Effect) : List String :=
  tr.filterMap (fun e => match e with | .embedCall q => some q | _ => none)

/-- Connections on which a business store query was executed, in order. -/
def queryConns (tr : List Effect) : List Nat :=
  tr.filterMap (fun e => match e with | .query c => some c | _ => none)

/-- Oracle for one acquisition attempt inside `get_valid_connection`:
either `pool.getconn()` itself raised, or it returned connection `c` and the
`SELECT 1` liveness probe on `c` failed with `e`, or `c` was returned and
passed its probe. -/
inductive AttemptOutcome where
  | acquireFail (e : Err)
  | probeFail (c : Nat) (e : Err)
  | success (c : Nat)

/-- The state of the process plus the behaviour of all external
collaborators, fixed for the duration of one operation. `poolInitialized`
and `voyageInitialized` model whether the module-level `connection_pool` and
`voyage_client` globals are `None`; `attempts` gives the outcome of the i-th
acquisition attempt; `table` is the current contents of the `neron` table;
the `...QueryErr` oracles say whether the corresponding cursor execution
raises; `searchRows` is the ranked answer the store gives to the similarity
query; `embedResult` is the external embedding service. -/
structure World where
  cfg : Config
  poolInitialized : Bool
  voyageInitialized : Bool
  attempts : Nat → AttemptOutcome
  table : List NoteRow
  dayQueryErr : Option Err
  allQueryErr : Option Err
  searchQueryErr : Option Err
  searchRows : List ℚ → Int → List SearchRow
  embedResult : String → Except Err (List ℚ)

/-- The error raised by `get_connection` when the pool global is `None`. -/
def notInitErr : Err :=
  .runtimeError "Connection pool not initialized. Call initialize_pool() first."

/-- Embeds `db_connector.get_connection`: raises when the pool is uninitialized,
otherwise delegates to `pool.getconn()` (modelled by the attempt oracle;
the index is the attempt that performs the call). -/
def get_connection (w : World) (i : Nat) : Except Err Nat :=
  if w.poolInitialized then
    match w.attempts i with
    | .acquireFail e => .error e
    | .probeFail c _ => .ok c
    | .success c => .ok c
  else .error notInitErr

/-- Result of the `SELECT 1` liveness probe run on the connection obtained at
attempt `i` (`none` = probe passed). -/
def probeOutcome (w : World) (i : Nat) : Option Err :=
  match w.attempts i with
  | .probeFail _ e => some e
  | _ => none

/-- Embeds `db_connector.return_connection`: a no-op when the pool global is `None`,
otherwise `pool.putconn(conn, close=close)`. -/
def return_connection (w : World) (c : Nat) (close : Bool) : List Effect :=
  if w.poolInitialized then [.release c close] else []

/-- Message of the terminal error raised after the last failed attempt. -/
def gvcFailMsg (n : Nat) : String :=
  "Failed to get valid connection after " ++ toString n ++ " attempts"

/-- The attempt loop of `get_valid_connection`: `attempt` is the current
Python loop index, the second argument counts the remaining iterations of
`range(max_retries)`. On an attempt failure the acquired connection (if any)
is returned closed; on the last attempt the error is wrapped in the terminal
`RuntimeError ... from e`. Exhausting the loop without an iteration hits the
defensive `raise RuntimeError` after the loop. -/
def gvcAux (w : World) (max_retries : Nat) : Nat → Nat → List Effect × Except Err Nat
  | _, 0 => ([], .error (.runtimeError "Failed to get valid connection"))
  | attempt, r + 1 =>
    match get_connection w attempt with
    | .error e =>
      if r = 0 then ([], .error (.chained (gvcFailMsg max_retries) e))
      else gvcAux w max_retries (attempt + 1) r
    | .ok c =>
      match probeOutcome w attempt with
      | some e =>
        let pre : List Effect := .acquire c :: return_connection w c true
        if r = 0 then (pre, .error (.chained (gvcFailMsg max_retries) e))
        else
          let rest := gvcAux w max_retries (attempt + 1) r
          (pre ++ rest.1, rest.2)
      | none => ([.acquire c], .ok c)

/-- Embeds `db_connector.get_valid_connection(max_retries=3)`. -/
def get_valid_connection (w : World) (max_retries : Nat := 3) : List Effect × Except Err Nat :=
  gvcAux w max_retries 0 max_retries

/-- Embeds `db_connector.get_notes_by_day`: acquire a validated connection, run the
day query, and in the `finally` block return the connection, closing it when
the query raised. -/
def get_notes_by_day (w : World) (target_date : DateYMD) : List Effect × Except Err (List NoteRow) :=
  match get_valid_connection w 3 with
  | (tr, .error e) => (tr, .error e)
  | (tr, .ok c) =>
    match w.dayQueryErr with
    | some e => (tr ++ [.query c] ++ return_connection w c true, .error e)
    | none => (tr ++ [.query c] ++ return_connection w c false, .ok (notesByDayQuery w.table target_date))

/-- Embeds `db_connector.get_all_notes`. -/
def get_all_notes (w : World) : List Effect × Except Err (List NoteRow) :=
  match get_valid_connection w 3 with
  | (tr, .error e) => (tr, .error e)
  | (tr, .ok c) =>
    match w.allQueryErr with
    | some e => (tr ++ [.query c] ++ return_connection w c true, .error e)
    | none => (tr ++ [.query c] ++ return_connection w c false, .ok (allNotesQuery w.table))

/-- Message of the `ValueError` raised on an embedding dimension mismatch. -/
def dimMismatchMsg (expected got : Nat) : String :=
  "Embedding dimension mismatch: expected " ++ toString expected ++ ", got " ++ toString got

/-- Embeds `db_connector.search_notes`: embed the query text via the Voyage client
(an `AttributeError` when the client global is still `None`), validate the
embedding dimension, then acquire a validated connection and run the
similarity query, returning the connection closed when the query raised. -/
def search_notes (w : World) (query_text : String) (top_k : Int) : List Effect × Except Err (List SearchRow) :=
  if w.voyageInitialized then
    match w.embedResult query_text with
    | .error e => ([.embedCall query_text], .error e)
    | .ok v =>
      if v.length = w.cfg.embeddingDimension then
        match get_valid_connection w 3 with
        | (tr, .error e) => (.embedCall query_text :: tr, .error e)
        | (tr, .ok c) =>
          match w.searchQueryErr with
          | some e => (.embedCall query_text :: (tr ++ [.query c] ++ return_connection w c true), .error e)
          | none =>
            (.embedCall query_text :: (tr ++ [.query c] ++ return_connection w c false),
              .ok (w.searchRows v top_k))
      else
        ([.embedCall query_text],
          .error (.valueError (dimMismatchMsg w.cfg.embeddingDimension v.length)))
  else ([], .error (.attributeError "\x27NoneType\x27 object has no attribute \x27embed\x27"))

/-! ### Pool shutdown (src/db_connector.py `close_pool` over the psycopg2 pool) -/

/-- A physical connection held by the psycopg2 pool. -/
structure PConn where
  id : Nat
  closed : Bool
deriving DecidableEq

/-- The psycopg2 `ThreadedConnectionPool`, as far as shutdown is concerned:
its idle connections, its checked-out connections and its `closed` flag.
Modelled from the psycopg2 library (external collaborator, not under src/). -/
structure TCPool where
  pooledConns : List PConn
  usedConns : List PConn
  closed : Bool
deriving DecidableEq

/-- psycopg2 `AbstractConnectionPool._closeall` (run under the lock by
`ThreadedConnectionPool.closeall`): raises `PoolError` when the pool is
already closed, otherwise closes every pooled and every checked-out
connection and marks the pool closed. Modelled from the psycopg2 library
(external collaborator, not under src/). -/
def TCPool.closeall (p : TCPool) : Except Err TCPool :=
  if p.closed then .error (.poolError "connection pool is closed")
  else
    .ok
      { pooledConns := p.pooledConns.map (fun c => { c with closed := true }),
        usedConns := p.usedConns.map (fun c => { c with closed := true }),
        closed := true }

/-- Embeds `db_connector.close_pool`: calls `closeall` unless the module-level pool
global is `None`. The global is never reset, so the resulting state keeps the
(now closed) pool object. -/
def close_pool (pool : Option TCPool) : Except Err (Option TCPool) :=
  match pool with
  | none => .ok none
  | some p => (p.closeall).map some

/-! ### Tool dispatch (src/server.py) -/

/-- The `arguments` dict of a tool call, typed by the keys the handlers
read. A `none` field models an absent key. -/
structure Args where
  day : Option String
  text : Option String
  top_k : Option Int
deriving DecidableEq

/-- Embeds `mcp.types.TextContent` with `type="text"`. -/
structure TextContent where
  text : String
deriving DecidableEq

/-- Gregorian leap year, as used by `datetime`. -/
def isLeapYear (y : Nat) : Bool :=
  (y % 4 == 0 && y % 100 != 0) || y % 400 == 0

/-- Number of days of month `m` of year `y` (`datetime` calendar). -/
def daysInMonth (y m : Nat) : Nat :=
  if m = 2 then (if isLeapYear y then 29 else 28)
  else if m = 4 ∨ m = 6 ∨ m = 9 ∨ m = 11 then 30
  else 31

/-- Value of a string of decimal digits. -/
def natOfDigits (l : List Char) : Nat :=
  l.foldl (fun a c => a * 10 + (c.toNat - 48)) 0

/-- Split a character sequence at every dash (the semantics of
`day_str.split` at the single-character separator of the date pattern). -/
def splitOnDash : List Char → List (List Char)
  | [] => [[]]
  | c :: rest =>
    if c = Char.ofNat 45 then [] :: splitOnDash rest
    else
      match splitOnDash rest with
      | [] => [[c]]
      | h :: t => (c :: h) :: t

/-- One numeric field of a `strptime` pattern: between `minLen` and `maxLen`
decimal digits. -/
def parseField (l : List Char) (minLen maxLen : Nat) : Option Nat :=
  if decide (minLen ≤ l.length) && decide (l.length ≤ maxLen) && l.all Char.isDigit then
    some (natOfDigits l)
  else none

/-- Embeds `datetime.strptime(day_str, "%Y-%m-%d").date()` as wrapped in the
handler `try` block: `%Y` is exactly four digits, `%m` and `%d` one or two digits, the
whole string must be consumed, and the `date` constructor checks calendar
validity (month 1-12, day within the month, year at least `MINYEAR = 1`);
any violation raises `ValueError`, i.e. yields `none`. -/
def strptimeDate (s : String) : Option DateYMD :=
  match splitOnDash s.data with
  | [ys, ms, ds] =>
    match parseField ys 4 4, parseField ms 1 2, parseField ds 1 2 with
    | some y, some m, some d =>
      if 1 ≤ y ∧ 1 ≤ m ∧ m ≤ 12 ∧ 1 ≤ d ∧ d ≤ daysInMonth y m then some ⟨y, m, d⟩
      else none
    | _, _, _ => none
  | _ => none

/-- Zero-pad a number to two digits (`strftime` numeric fields). -/
def pad2 (n : Nat) : String :=
  if n < 10 then "0" ++ toString n else toString n

/-- Zero-pad a year to four digits (`strftime` `%Y`). -/
def pad4 (n : Nat) : String :=
  if n < 10 then "000" ++ toString n
  else if n < 100 then "00" ++ toString n
  else if n < 1000 then "0" ++ toString n
  else toString n

/-- Embeds `timestamp.strftime("%H:%M:%S")`. -/
def fmtHMS (t : Timestamp) : String :=
  pad2 t.hour ++ ":" ++ pad2 t.minute ++ ":" ++ pad2 t.second

/-- Embeds `timestamp.strftime("%Y-%m-%d %H:%M")`. -/
def fmtYMDHM (t : Timestamp) : String :=
  pad4 t.year ++ "-" ++ pad2 t.month ++ "-" ++ pad2 t.day ++ " " ++ pad2 t.hour ++ ":" ++ pad2 t.minute

/-- Embeds `timestamp.strftime("%Y-%m-%d")`. -/
def fmtYMD (t : Timestamp) : String :=
  pad4 t.year ++ "-" ++ pad2 t.month ++ "-" ++ pad2 t.day

/-- Embeds the `f"{similarity*100:.1f}"` field: the similarity as a percentage with one
decimal digit (numeric rounding of the Python float formatting is modelled
as round-half-up on rationals). -/
def fmtPct1 (q : ℚ) : String :=
  let m : Int := round (q * 1000)
  let sign : String := if m < 0 then "-" else ""
  let a : Int := if m < 0 then -m else m
  sign ++ toString (a / 10) ++ "." ++ toString (a % 10)

/-- Embeds `enumerate(notes, 1)` over a formatting function. -/
def enumerateFrom (f : Nat → α → β) : Nat → List α → List β
  | _, [] => []
  | i, x :: xs => f i x :: enumerateFrom f (i + 1) xs

/-- The `get_notes_per_day` success payload. -/
def fmtDayNotes (day_str : String) (notes : List NoteRow) : String :=
  String.intercalate "\n"
    (( "Found " ++ toString notes.length ++ " note(s) for " ++ day_str ++ ":\n") ::
      enumerateFrom
        (fun i r => "\n" ++ toString i ++ ". [" ++ fmtHMS r.timestamp ++ "] " ++ r.text) 1 notes)

/-- The `get_all_notes` success payload. -/
def fmtAllNotes (notes : List NoteRow) : String :=
  String.intercalate "\n"
    (( "Found " ++ toString notes.length ++ " note(s):\n") ::
      enumerateFrom
        (fun i r => "\n" ++ toString i ++ ". [" ++ fmtYMDHM r.timestamp ++ "] " ++ r.text) 1 notes)

/-- The `search` success payload (two list entries per result row). -/
def fmtSearchResults (query_text : String) (rows : List SearchRow) : String :=
  String.intercalate "\n"
    (( "Found " ++ toString rows.length ++ " result(s) for \x27" ++ query_text ++ "\x27:\n") ::
      (enumerateFrom
        (fun i r =>
          [ "\n" ++ toString i ++ ". [" ++ fmtPct1 r.similarity ++ "%] " ++ fmtYMD r.timestamp,
            "   " ++ r.text]) 1 rows).flatten)

/-- The body of `server.call_tool` before its top-level `except Exception`
handler: everything the `try` block does, with exceptions as `Except.error`.
Reading a missing required key from `arguments` raises `KeyError`. -/
def call_tool_body (w : World) (name : String) (args : Args) : List Effect × Except Err (List TextContent) :=
  if name = "get_notes_per_day" then
    match args.day with
    | none => ([], .error (.keyError "day"))
    | some day_str =>
      match strptimeDate day_str with
      | none => ([], .ok [⟨ "Invalid date format: " ++ day_str⟩])
      | some target_date =>
        match get_notes_by_day w target_date with
        | (tr, .error e) => (tr, .error e)
        | (tr, .ok notes) =>
          if notes.isEmpty then (tr, .ok [⟨ "No notes found for " ++ day_str⟩])
          else (tr, .ok [⟨fmtDayNotes day_str notes⟩])
  else if name = "get_all_notes" then
    match get_all_notes w with
    | (tr, .error e) => (tr, .error e)
    | (tr, .ok notes) =>
      if notes.isEmpty then (tr, .ok [⟨ "No notes found"⟩])
      else (tr, .ok [⟨fmtAllNotes notes⟩])
  else if name = "search" then
    match args.text with
    | none => ([], .error (.keyError "text"))
    | some query_text =>
      let top_k := args.top_k.getD 5
      if top_k ≤ 0 then ([], .ok [⟨ "top_k must be positive"⟩])
      else
        match search_notes w query_text top_k with
        | (tr, .error e) => (tr, .error e)
        | (tr, .ok results) =>
          if results.isEmpty then
            (tr, .ok [⟨ "No results for: \x27" ++ query_text ++ "\x27"⟩])
          else (tr, .ok [⟨fmtSearchResults query_text results⟩])
  else ([], .ok [⟨ "Unknown tool: " ++ name⟩])

/-- Embeds `server.call_tool`: the `try` body, with the top-level handler turning
any raised exception into an `Error: {e}` text content. -/
def call_tool (w : World) (name : String) (args : Args) : List Effect × List TextContent :=
  match call_tool_body w name args with
  | (tr, .ok msgs) => (tr, msgs)
  | (tr, .error e) => (tr, [⟨ "Error: " ++ errStr e⟩])

/-! ### Bearer gate (src/http_server.py) -/

/-- An inbound HTTP request, reduced to the header the gate reads:
`request.headers.get("Authorization")`. -/
structure Request where
  authorization : Option String
deriving DecidableEq

/-- The literal prefix checked by the gate. -/
def bearerLit : String := "Bearer "

/-- Embeds `http_server.verify_token`: the header must be present and non-empty
(Python truthiness), start with `"Bearer "` (a prefix test on the character
sequence, as `str.startswith` performs), and the rest of the header
(`auth_header[7:]`) must equal the configured token exactly. -/
def verify_token (cfg : Config) (req : Request) : Bool :=
  match req.authorization with
  | none => false
  | some s =>
    if s.isEmpty || !(bearerLit.data.isPrefixOf s.data) then false
    else s.drop 7 == cfg.mcpAuthToken

/-- Outcome of `http_server.handle_mcp`: either an early `Response` carrying
a body, a status code and a `WWW-Authenticate` header, or the request is
forwarded to the MCP session manager (tool dispatch). -/
inductive HandleResult where
  | rejected (body : String) (status : Nat) (wwwAuthenticate : String)
  | forwarded
deriving DecidableEq

/-- The `WWW-Authenticate` challenge value built by `handle_mcp`. -/
def challengeHeader (cfg : Config) : String :=
  "Bearer realm=\"mcp\", resource_metadata_url=\"https://" ++ cfg.serverDomain ++
    "/.well-known/oauth-protected-resource\""

/-- Embeds `http_server.handle_mcp`. -/
def handle_mcp (cfg : Config) (req : Request) : HandleResult :=
  if !(verify_token cfg req) then
    .rejected "Unauthorized" 401 (challengeHeader cfg)
  else .forwarded

/-! ### Token exchange (src/fake_oauth_server.py) -/

/-- The JSON body returned by the token endpoint. -/
structure TokenResponse where
  access_token : String
  token_type : String
  expires_in : Nat
  scope : String
deriving DecidableEq

/-- Embeds `fake_oauth_server.token_exchange`: reads the form (only to log the
`code` field) and always answers with the fixed configured credential and a
fixed ten-year expiry. -/
def token_exchange (cfg : Config) (form : List (String × String)) : TokenResponse :=
  { access_token := cfg.mcpAuthToken,
    token_type := "Bearer",
    expires_in := 315360000,
    scope := "user" }

/-! ### Concrete instances used by witnesses and counterexamples -/

/-- A concrete configuration. -/
def cfg0 : Config := ⟨ "tok", "example.com", 3, 2, 10⟩

/-- A concrete table of three notes over two days. -/
def table0 : List NoteRow :=
  [⟨3, ⟨2024, 2, 1, 8, 0, 0⟩, "gamma"⟩,
   ⟨1, ⟨2024, 1, 15, 9, 0, 0⟩, "alpha"⟩,
   ⟨2, ⟨2024, 1, 15, 10, 30, 0⟩, "beta"⟩]

/-- A healthy world: pool and embedding client both live, first acquisition
attempt succeeds, no query failures. -/
def w0 : World :=
  { cfg := cfg0, poolInitialized := true, voyageInitialized := true,
    attempts := fun _ => .success 0,
    table := table0,
    dayQueryErr := none, allQueryErr := none, searchQueryErr := none,
    searchRows := fun _ _ => [⟨1, "alpha", ⟨2024, 1, 15, 9, 0, 0⟩, (9 : ℚ)/10⟩],
    embedResult := fun _ => .ok [1, 0, 0] }

/-- A world where the first acquisition attempt yields a connection that
fails its probe and the second succeeds. -/
def wProbe : World :=
  { w0 with attempts := fun i => if i = 0 then .probeFail 7 (.dbError "dead") else .success 8 }

/-- A world where every acquisition attempt yields a probe failure. -/
def wAllFail : World :=
  { w0 with attempts := fun _ => .probeFail 7 (.dbError "dead") }

/-- A world where the day query raises. -/
def wDayFail : World :=
  { w0 with dayQueryErr := some (.dbError "boom"), allQueryErr := some (.dbError "boom"),
            searchQueryErr := some (.dbError "boom") }

/-- A world in which `initialize_pool` was never called: both module globals
are still `None`. -/
def wUninit : World :=
  { w0 with poolInitialized := false, voyageInitialized := false }

/-- A world whose embedding service returns a vector of the wrong length
(two entries against a configured dimension of three). -/
def wBadDim : World :=
  { w0 with embedResult := fun _ => .ok [1, 0] }

/-- A concrete open pool with two idle and one checked-out connection. -/
def pool0 : TCPool := ⟨[⟨0, false⟩, ⟨1, false⟩], [⟨2, false⟩], false⟩

/-! ## Helper lemmas -/

theorem acquiredIds_nil : acquiredIds [] = [] := rfl

theorem releasedIds_nil : releasedIds [] = [] := rfl

theorem closedReleasedIds_nil : closedReleasedIds [] = [] := rfl

theorem acquiredIds_append (t u : List Effect) :
    acquiredIds (t ++ u) = acquiredIds t ++ acquiredIds u :=
  List.filterMap_append t u _

theorem releasedIds_append (t u : List Effect) :
    releasedIds (t ++ u) = releasedIds t ++ releasedIds u :=
  List.filterMap_append t u _

theorem closedReleasedIds_append (t u : List Effect) :
    closedReleasedIds (t ++ u) = closedReleasedIds t ++ closedReleasedIds u :=
  List.filterMap_append t u _

theorem acquiredIds_cons_acquire (c : Nat) (t : List Effect) :
    acquiredIds (.acquire c :: t) = c :: acquiredIds t := rfl

theorem acquiredIds_cons_release (c : Nat) (b : Bool) (t : List Effect) :
    acquiredIds (.release c b :: t) = acquiredIds t := rfl

theorem acquiredIds_cons_query (c : Nat) (t : List Effect) :
    acquiredIds (.query c :: t) = acquiredIds t := rfl

theorem acquiredIds_cons_embed (q : String) (t : List Effect) :
    acquiredIds (.embedCall q :: t) = acquiredIds t := rfl

theorem releasedIds_cons_acquire (c : Nat) (t : List Effect) :
    releasedIds (.acquire c :: t) = releasedIds t := rfl

theorem releasedIds_cons_release (c : Nat) (b : Bool) (t : List Effect) :
    releasedIds (.release c b :: t) = c :: releasedIds t := rfl

theorem releasedIds_cons_query (c : Nat) (t : List Effect) :
    releasedIds (.query c :: t) = releasedIds t := rfl

theorem releasedIds_cons_embed (q : String) (t : List Effect) :
    releasedIds (.embedCall q :: t) = releasedIds t := rfl

theorem closedReleasedIds_cons_acquire (c : Nat) (t : List Effect) :
    closedReleasedIds (.acquire c :: t) = closedReleasedIds t := rfl

theorem closedReleasedIds_cons_release_true (c : Nat) (t : List Effect) :
    closedReleasedIds (.release c true :: t) = c :: closedReleasedIds t := rfl

theorem closedReleasedIds_cons_release_false (c : Nat) (t : List Effect) :
    closedReleasedIds (.release c false :: t) = closedReleasedIds t := rfl

theorem closedReleasedIds_cons_query (c : Nat) (t : List Effect) :
    closedReleasedIds (.query c :: t) = closedReleasedIds t := rfl

theorem closedReleasedIds_cons_embed (q : String) (t : List Effect) :
    closedReleasedIds (.embedCall q :: t) = closedReleasedIds t := rfl

theorem get_connection_ok_pool {w : World} {i c : Nat}
    (h : get_connection w i = .ok c) : w.poolInitialized = true := by
  unfold get_connection at h
  by_cases hp : w.poolInitialized
  · exact hp
  · simp [hp] at h

theorem get_connection_ok_probe_none {w : World} {i c : Nat}
    (h : get_connection w i = .ok c) (hp : probeOutcome w i = none) :
    w.attempts i = .success c := by
  unfold get_connection at h
  unfold probeOutcome at hp
  by_cases hpool : w.poolInitialized
  · simp only [hpool, if_pos] at h
    cases ha : w.attempts i <;> rw [ha] at h hp
    · exact absurd h (by simp)
    · exact absurd hp (by simp)
    · cases h; rfl
  · simp [hpool] at h

theorem return_connection_true_of_pool {w : World} {c : Nat}
    (hp : w.poolInitialized = true) : return_connection w c true = [.release c true] := by
  simp [return_connection, hp]

theorem gvcAux_succ (w : World) (maxR a r : Nat) :
    gvcAux w maxR a (r + 1) =
      match get_connection w a with
      | .error e =>
        if r = 0 then ([], .error (.chained (gvcFailMsg maxR) e))
        else gvcAux w maxR (a + 1) r
      | .ok c =>
        match probeOutcome w a with
        | some e =>
          let pre : List Effect := .acquire c :: return_connection w c true
          if r = 0 then (pre, .error (.chained (gvcFailMsg maxR) e))
          else (pre ++ (gvcAux w maxR (a + 1) r).1, (gvcAux w maxR (a + 1) r).2)
        | none => ([.acquire c], .ok c) := rfl

/-- Combined behaviour of the `get_valid_connection` attempt loop: every
release in its trace closes the connection; it acquires at most one
connection per remaining attempt; a returned connection passed its probe at
some attempt, and every other acquired connection was returned closed; on
failure every acquired connection was returned closed; and when no attempt
in range can succeed, the loop ends in the terminal chained error. -/
theorem gvcAux_spec (w : World) (maxR : Nat) :
    ∀ r a,
      releasedIds (gvcAux w maxR a r).1 = closedReleasedIds (gvcAux w maxR a r).1
    ∧ (acquiredIds (gvcAux w maxR a r).1).length ≤ r
    ∧ (∀ c, (gvcAux w maxR a r).2 = .ok c →
        acquiredIds (gvcAux w maxR a r).1 = closedReleasedIds (gvcAux w maxR a r).1 ++ [c]
        ∧ ∃ i, a ≤ i ∧ i < a + r ∧ w.attempts i = .success c ∧ w.poolInitialized = true)
    ∧ (∀ e, (gvcAux w maxR a r).2 = .error e →
        acquiredIds (gvcAux w maxR a r).1 = closedReleasedIds (gvcAux w maxR a r).1)
    ∧ ((∀ i c, a ≤ i → i < a + r → w.poolInitialized = true → w.attempts i ≠ .success c) →
        0 < r → ∃ e, (gvcAux w maxR a r).2 = .error (.chained (gvcFailMsg maxR) e)) := by
  intro r
  induction r with
  | zero =>
    intro a
    refine ⟨rfl, by simp [gvcAux, acquiredIds], ?_, ?_, ?_⟩
    · intro c h; exact absurd h (by simp [gvcAux])
    · intro e _; rfl
    · intro _ h; exact absurd h (by omega)
  | succ r ih =>
    intro a
    cases hgc : get_connection w a with
    | error e0 =>
      by_cases hr : r = 0
      · subst hr
        simp only [gvcAux_succ, hgc, if_pos rfl]
        refine ⟨rfl, by simp [acquiredIds], ?_, ?_, ?_⟩
        · intro c h; exact absurd h (by simp)
        · intro e _; rfl
        · intro _ _; exact ⟨e0, rfl⟩
      · have heq : gvcAux w maxR a (r + 1) = gvcAux w maxR (a + 1) r := by
          simp only [gvcAux_succ, hgc, if_neg hr]
        obtain ⟨ih1, ih2, ih3, ih4, ih5⟩ := ih (a + 1)
        rw [heq]
        refine ⟨ih1, le_trans ih2 (by omega), ?_, ih4, ?_⟩
        · intro c h
          obtain ⟨hb, i, hi1, hi2, hi3, hi4⟩ := ih3 c h
          exact ⟨hb, i, by omega, by omega, hi3, hi4⟩
        · intro hfail _
          exact ih5 (fun i c h1 h2 => hfail i c (by omega) (by omega)) (by omega)
    | ok c0 =>
      have hpool : w.poolInitialized = true := get_connection_ok_pool hgc
      cases hpo : probeOutcome w a with
      | some e0 =>
        have hrc : return_connection w c0 true = [.release c0 true] :=
          return_connection_true_of_pool hpool
        by_cases hr : r = 0
        · subst hr
          have heq : gvcAux w maxR a 1 =
              ([.acquire c0, .release c0 true], .error (.chained (gvcFailMsg maxR) e0)) := by
            simp [gvcAux_succ, hgc, hpo, hrc]
          rw [heq]
          refine ⟨rfl, by simp [acquiredIds], ?_, ?_, ?_⟩
          · intro c h; exact absurd h (by simp)
          · intro e _; rfl
          · intro _ _; exact ⟨e0, rfl⟩
        · have heq : gvcAux w maxR a (r + 1) =
              (.acquire c0 :: .release c0 true :: (gvcAux w maxR (a + 1) r).1,
                (gvcAux w maxR (a + 1) r).2) := by
            simp only [gvcAux_succ, hgc, hpo, hrc, if_neg hr]
            rfl
          obtain ⟨ih1, ih2, ih3, ih4, ih5⟩ := ih (a + 1)
          rw [heq]
          refine ⟨?_, ?_, ?_, ?_, ?_⟩
          · simp only [releasedIds_cons_acquire, releasedIds_cons_release,
              closedReleasedIds_cons_acquire, closedReleasedIds_cons_release_true, ih1]
          · simp only [acquiredIds_cons_acquire, acquiredIds_cons_release, List.length_cons]
            omega
          · intro c h
            obtain ⟨hb, i, hi1, hi2, hi3, hi4⟩ := ih3 c h
            constructor
            · simp only [acquiredIds_cons_acquire, acquiredIds_cons_release,
                closedReleasedIds_cons_acquire, closedReleasedIds_cons_release_true, hb,
                List.cons_append]
            · exact ⟨i, by omega, by omega, hi3, hi4⟩
          · intro e h
            simp only [acquiredIds_cons_acquire, acquiredIds_cons_release,
              closedReleasedIds_cons_acquire, closedReleasedIds_cons_release_true, ih4 e h]
          · intro hfail _
            exact ih5 (fun i c h1 h2 => hfail i c (by omega) (by omega)) (by omega)
      | none =>
        have hsucc : w.attempts a = .success c0 := get_connection_ok_probe_none hgc hpo
        have heq : gvcAux w maxR a (r + 1) = ([.acquire c0], .ok c0) := by
          simp only [gvcAux_succ, hgc, hpo]
        rw [heq]
        refine ⟨rfl, by simp [acquiredIds], ?_, ?_, ?_⟩
        · intro c h
          have hc : c0 = c := by simpa using h
          subst hc
          exact ⟨rfl, a, le_refl a, by omega, hsucc, hpool⟩
        · intro e h; exact absurd h (by simp)
        · intro hfail _
          exact absurd hsucc (hfail a c0 (le_refl a) (by omega) hpool)

/-! ## Claim theorems -/

/-- C5: `get_valid_connection` performs at most `max_retries` acquisitions in
total; a connection it returns is one whose `SELECT 1` liveness probe
succeeded at some attempt, and every other connection it acquired was
returned closed (invalidated); on a failed run every acquired connection was
returned closed; and when no attempt can succeed it ends, after the final
failed attempt, in the distinct terminal `RuntimeError ... from e` instead of
retrying further. -/
theorem get_valid_connection_spec (w : World) (maxR : Nat) :
    (acquiredIds (get_valid_connection w maxR).1).length ≤ maxR
  ∧ (∀ c, (get_valid_connection w maxR).2 = .ok c →
      acquiredIds (get_valid_connection w maxR).1
        = closedReleasedIds (get_valid_connection w maxR).1 ++ [c]
      ∧ ∃ i, i < maxR ∧ w.attempts i = .success c)
  ∧ (∀ e, (get_valid_connection w maxR).2 = .error e →
      acquiredIds (get_valid_connection w maxR).1
        = closedReleasedIds (get_valid_connection w maxR).1)
  ∧ ((∀ i c, i < maxR → w.poolInitialized = true → w.attempts i ≠ .success c) →
      0 < maxR →
      ∃ e, (get_valid_connection w maxR).2 = .error (.chained (gvcFailMsg maxR) e)) := by
  obtain ⟨h1, h2, h3, h4, h5⟩ := gvcAux_spec w maxR maxR 0
  refine ⟨h2, ?_, h4, ?_⟩
  · intro c h
    obtain ⟨hb, i, _, hi2, hi3, _⟩ := h3 c h
    exact ⟨hb, i, by omega, hi3⟩
  · intro hfail h0
    exact h5 (fun i c _ h2 hp => hfail i c (by omega) hp) h0

/-- Witness for C5 at concrete worlds: with the first probe failing and the
second attempt succeeding, the returned connection is 8 and connection 7 was
acquired and closed; with every probe failing, the terminal chained error is
raised. -/
theorem get_valid_connection_spec_witness :
    (acquiredIds (get_valid_connection wProbe 3).1
      = closedReleasedIds (get_valid_connection wProbe 3).1 ++ [8]
      ∧ ∃ i, i < 3 ∧ wProbe.attempts i = .success 8)
    ∧ ∃ e, (get_valid_connection wAllFail 3).2 = .error (.chained (gvcFailMsg 3) e) :=
  ⟨(get_valid_connection_spec wProbe 3).2.1 8 (by rfl),
    (get_valid_connection_spec wAllFail 3).2.2.2
      (fun i c _ _ h => by simp [wAllFail, w0] at h) (by decide)⟩

/-- C6: each of `get_notes_by_day`, `get_all_notes` and `search_notes`
releases back exactly the connections it acquired on every exit path; and a
failure during query execution closes the connection on release while the
query error itself propagates to the caller. -/
theorem release_on_every_path :
    (∀ w d, acquiredIds (get_notes_by_day w d).1 = releasedIds (get_notes_by_day w d).1)
  ∧ (∀ w, acquiredIds (get_all_notes w).1 = releasedIds (get_all_notes w).1)
  ∧ (∀ w q k, acquiredIds (search_notes w q k).1 = releasedIds (search_notes w q k).1)
  ∧ (∀ w d c e, w.dayQueryErr = some e → (get_valid_connection w 3).2 = .ok c →
      get_notes_by_day w d
        = ((get_valid_connection w 3).1 ++ [.query c, .release c true], .error e))
  ∧ (∀ w c e, w.allQueryErr = some e → (get_valid_connection w 3).2 = .ok c →
      get_all_notes w
        = ((get_valid_connection w 3).1 ++ [.query c, .release c true], .error e))
  ∧ (∀ w q k v c e, w.voyageInitialized = true → w.embedResult q = .ok v →
      v.length = w.cfg.embeddingDimension → w.searchQueryErr = some e →
      (get_valid_connection w 3).2 = .ok c →
      search_notes w q k
        = (.embedCall q :: ((get_valid_connection w 3).1 ++ [.query c, .release c true]),
            .error e)) := by
  have hbal : ∀ w c, (get_valid_connection w 3).2 = .ok c →
      w.poolInitialized = true
      ∧ acquiredIds (get_valid_connection w 3).1
          = closedReleasedIds (get_valid_connection w 3).1 ++ [c]
      ∧ releasedIds (get_valid_connection w 3).1
          = closedReleasedIds (get_valid_connection w 3).1 := by
    intro w c h
    obtain ⟨h1, _, h3, _, _⟩ := gvcAux_spec w 3 3 0
    obtain ⟨hb, _, _, _, _, hp⟩ := h3 c h
    exact ⟨hp, hb, h1⟩
  have herr : ∀ w e, (get_valid_connection w 3).2 = .error e →
      acquiredIds (get_valid_connection w 3).1
        = closedReleasedIds (get_valid_connection w 3).1
      ∧ releasedIds (get_valid_connection w 3).1
          = closedReleasedIds (get_valid_connection w 3).1 := by
    intro w e h
    obtain ⟨h1, _, _, h4, _⟩ := gvcAux_spec w 3 3 0
    exact ⟨h4 e h, h1⟩
  have hday : ∀ w d, acquiredIds (get_notes_by_day w d).1 = releasedIds (get_notes_by_day w d).1 := by
    intro w d
    unfold get_notes_by_day
    rcases hg : get_valid_connection w 3 with ⟨tr, res⟩
    cases res with
    | error e =>
      obtain ⟨ha, hr⟩ := herr w e (by rw [hg])
      rw [hg] at ha hr
      simpa using ha.trans hr.symm
    | ok c =>
      obtain ⟨hp, ha, hr⟩ := hbal w c (by rw [hg])
      rw [hg] at ha hr
      cases hq : w.dayQueryErr <;>
        simp [return_connection, hp, acquiredIds_append, releasedIds_append,
          acquiredIds_cons_query, releasedIds_cons_query, acquiredIds_cons_release,
          releasedIds_cons_release, acquiredIds_nil, releasedIds_nil, ha, hr]
  have hall : ∀ w, acquiredIds (get_all_notes w).1 = releasedIds (get_all_notes w).1 := by
    intro w
    unfold get_all_notes
    rcases hg : get_valid_connection w 3 with ⟨tr, res⟩
    cases res with
    | error e =>
      obtain ⟨ha, hr⟩ := herr w e (by rw [hg])
      rw [hg] at ha hr
      simpa using ha.trans hr.symm
    | ok c =>
      obtain ⟨hp, ha, hr⟩ := hbal w c (by rw [hg])
      rw [hg] at ha hr
      cases hq : w.allQueryErr <;>
        simp [return_connection, hp, acquiredIds_append, releasedIds_append,
          acquiredIds_cons_query, releasedIds_cons_query, acquiredIds_cons_release,
          releasedIds_cons_release, acquiredIds_nil, releasedIds_nil, ha, hr]
  refine ⟨hday, hall, ?_, ?_, ?_, ?_⟩
  · intro w q k
    unfold search_notes
    by_cases hv : w.voyageInitialized
    · simp only [hv, if_pos]
      cases he : w.embedResult q with
      | error e => simp [acquiredIds, releasedIds]
      | ok v =>
        by_cases hdim : v.length = w.cfg.embeddingDimension
        · simp only [hdim, if_pos]
          rcases hg : get_valid_connection w 3 with ⟨tr, res⟩
          cases res with
          | error e =>
            obtain ⟨ha, hr⟩ := herr w e (by rw [hg])
            rw [hg] at ha hr
            simpa using ha.trans hr.symm
          | ok c =>
            obtain ⟨hp, ha, hr⟩ := hbal w c (by rw [hg])
            rw [hg] at ha hr
            cases hq : w.searchQueryErr <;>
              simp [return_connection, hp, acquiredIds_append, releasedIds_append,
                acquiredIds_cons_query, releasedIds_cons_query, acquiredIds_cons_release,
                releasedIds_cons_release, acquiredIds_cons_embed, releasedIds_cons_embed,
                acquiredIds_nil, releasedIds_nil, ha, hr]
        · simp [hdim, acquiredIds, releasedIds]
    · simp [hv, acquiredIds, releasedIds]
  · intro w d c e hq hg
    obtain ⟨hp, _, _⟩ := hbal w c hg
    unfold get_notes_by_day
    rcases hg2 : get_valid_connection w 3 with ⟨tr, res⟩
    rw [hg2] at hg
    cases res with
    | error e2 => exact absurd hg (by simp)
    | ok c2 =>
      have : c2 = c := by simpa using hg
      subst this
      simp [hq, return_connection, hp]
  · intro w c e hq hg
    obtain ⟨hp, _, _⟩ := hbal w c hg
    unfold get_all_notes
    rcases hg2 : get_valid_connection w 3 with ⟨tr, res⟩
    rw [hg2] at hg
    cases res with
    | error e2 => exact absurd hg (by simp)
    | ok c2 =>
      have : c2 = c := by simpa using hg
      subst this
      simp [hq, return_connection, hp]
  · intro w q k v c e hv he hdim hq hg
    obtain ⟨hp, _, _⟩ := hbal w c hg
    unfold search_notes
    rcases hg2 : get_valid_connection w 3 with ⟨tr, res⟩
    rw [hg2] at hg
    cases res with
    | error e2 => exact absurd hg (by simp [hv, he, hdim])
    | ok c2 =>
      have : c2 = c := by simpa using hg
      subst this
      simp [hv, he, hdim, hq, return_connection, hp]

/-- Witness for C6 at a concrete world whose queries all fail: the day
lookup closes its connection on release and propagates the query error. -/
theorem release_on_every_path_witness :
    get_notes_by_day wDayFail ⟨2024, 1, 15⟩
      = ((get_valid_connection wDayFail 3).1 ++ [.query 0, .release 0 true],
          .error (.dbError "boom")) :=
  release_on_every_path.2.2.2.1 wDayFail ⟨2024, 1, 15⟩ 0 (.dbError "boom") (by rfl) (by rfl)

/-- C3: a `search` tool call whose `top_k` argument is not positive reports
the validation failure as a successful content payload and performs no
collaborator effect at all: no embedding-service call, no connection
acquisition, no store query. -/
theorem search_topk_guard (w : World) (args : Args) (t : String) (k : Int)
    (ht : args.text = some t) (hk : args.top_k = some k) (hk0 : k ≤ 0) :
    call_tool w "search" args = ([], [⟨ "top_k must be positive"⟩]) := by
  simp [call_tool, call_tool_body, ht, hk, hk0]

/-- Witness for C3: a concrete call with `top_k = -1`. -/
theorem search_topk_guard_witness :
    call_tool w0 "search" ⟨none, some "q", some (-1)⟩ = ([], [⟨ "top_k must be positive"⟩]) :=
  search_topk_guard w0 ⟨none, some "q", some (-1)⟩ "q" (-1) rfl rfl (by decide)

/-- C4: when the embedding service returns a vector whose length differs
from the configured dimension, `search_notes` raises the dimension-mismatch
`ValueError` and its only collaborator effect is the embedding call itself:
no connection is acquired and no store query is issued. -/
theorem search_dimension_guard (w : World) (q : String) (k : Int) (v : List ℚ)
    (hv : w.voyageInitialized = true) (he : w.embedResult q = .ok v)
    (hd : v.length ≠ w.cfg.embeddingDimension) :
    search_notes w q k
      = ([.embedCall q],
          .error (.valueError (dimMismatchMsg w.cfg.embeddingDimension v.length))) := by
  simp [search_notes, hv, he, hd]

/-- Witness for C4: a two-entry embedding against a configured dimension of
three. -/
theorem search_dimension_guard_witness :
    search_notes wBadDim "q" 5
      = ([.embedCall "q"], .error (.valueError (dimMismatchMsg 3 2))) :=
  search_dimension_guard wBadDim "q" 5 [1, 0] rfl rfl (by decide)

theorem rowLeAsc_trans (a b c : NoteRow) (hab : rowLeAsc a b = true)
    (hbc : rowLeAsc b c = true) : rowLeAsc a c = true := by
  simp only [rowLeAsc, decide_eq_true_eq] at hab hbc ⊢
  exact le_trans hab hbc

theorem rowLeAsc_total (a b : NoteRow) : (rowLeAsc a b || rowLeAsc b a) = true := by
  simp only [rowLeAsc, Bool.or_eq_true, decide_eq_true_eq]
  exact le_total _ _

theorem rowLeDesc_trans (a b c : NoteRow) (hab : rowLeDesc a b = true)
    (hbc : rowLeDesc b c = true) : rowLeDesc a c = true := by
  simp only [rowLeDesc, decide_eq_true_eq] at hab hbc ⊢
  exact le_trans hbc hab

theorem rowLeDesc_total (a b : NoteRow) : (rowLeDesc a b || rowLeDesc b a) = true := by
  simp only [rowLeDesc, Bool.or_eq_true, decide_eq_true_eq]
  exact (le_total _ _).symm

/-- C7: over a live pool and a healthy store, `get_notes_by_day` returns
exactly the table rows whose timestamp has the given date component, ordered
ascending by timestamp; `get_all_notes` returns all rows ordered descending
by timestamp; and both return an empty `ok` sequence, not a failure, when
nothing matches. -/
theorem notes_queries_spec (w : World) (d : DateYMD) (c : Nat)
    (hp : w.poolInitialized = true) (ha : w.attempts 0 = .success c)
    (hd : w.dayQueryErr = none) (hall : w.allQueryErr = none) :
    (get_notes_by_day w d).2 = .ok (notesByDayQuery w.table d)
  ∧ (notesByDayQuery w.table d).Perm
      (w.table.filter (fun r => decide (r.timestamp.date = d)))
  ∧ (notesByDayQuery w.table d).Pairwise (fun a b => a.timestamp.key ≤ b.timestamp.key)
  ∧ (get_all_notes w).2 = .ok (allNotesQuery w.table)
  ∧ (allNotesQuery w.table).Perm w.table
  ∧ (allNotesQuery w.table).Pairwise (fun a b => b.timestamp.key ≤ a.timestamp.key)
  ∧ ((∀ r ∈ w.table, ¬ r.timestamp.date = d) → (get_notes_by_day w d).2 = .ok [])
  ∧ (w.table = [] → (get_all_notes w).2 = .ok []) := by
  have hgc : get_connection w 0 = .ok c := by simp [get_connection, hp, ha]
  have hpo : probeOutcome w 0 = none := by simp [probeOutcome, ha]
  have hgv : get_valid_connection w 3 = ([.acquire c], .ok c) := by
    have h2 : get_valid_connection w 3 = gvcAux w 3 0 (2 + 1) := rfl
    rw [h2, gvcAux_succ, hgc, hpo]
  have hday : (get_notes_by_day w d).2 = .ok (notesByDayQuery w.table d) := by
    unfold get_notes_by_day
    rw [hgv, hd]
  have hallq : (get_all_notes w).2 = .ok (allNotesQuery w.table) := by
    unfold get_all_notes
    rw [hgv, hall]
  refine ⟨hday, ?_, ?_, hallq, ?_, ?_, ?_, ?_⟩
  · exact List.mergeSort_perm _ _
  · exact (List.sorted_mergeSort rowLeAsc_trans rowLeAsc_total _).imp
      (fun h => by simpa [rowLeAsc, decide_eq_true_eq] using h)
  · exact List.mergeSort_perm _ _
  · exact (List.sorted_mergeSort rowLeDesc_trans rowLeDesc_total _).imp
      (fun h => by simpa [rowLeDesc, decide_eq_true_eq] using h)
  · intro hnone
    have hfil : w.table.filter (fun r => decide (r.timestamp.date = d)) = [] := by
      rw [List.filter_eq_nil_iff]
      intro r hr
      simpa using hnone r hr
    rw [hday]
    unfold notesByDayQuery
    rw [hfil, List.mergeSort_nil]
  · intro htab
    rw [hallq]
    unfold allNotesQuery
    rw [htab, List.mergeSort_nil]

/-- Witness for C7: the concrete three-row table; the day lookup for
2024-01-15 returns its two matching rows ascending, and a day with no notes
yields the empty result. -/
theorem notes_queries_spec_witness :
    (get_notes_by_day w0 ⟨2024, 1, 15⟩).2 = .ok (notesByDayQuery w0.table ⟨2024, 1, 15⟩)
    ∧ (get_notes_by_day w0 ⟨1999, 1, 1⟩).2 = .ok [] :=
  ⟨(notes_queries_spec w0 ⟨2024, 1, 15⟩ 0 rfl rfl rfl rfl).1,
    (notes_queries_spec w0 ⟨1999, 1, 1⟩ 0 rfl rfl rfl rfl).2.2.2.2.2.2.1 (by decide)⟩

theorem call_tool_body_shape (w : World) (name : String) (args : Args) :
    (∃ s, (call_tool_body w name args).2 = .ok [⟨s⟩])
    ∨ (∃ e, (call_tool_body w name args).2 = .error e) := by
  unfold call_tool_body
  repeat'
    first
      | exact Or.inl ⟨_, rfl⟩
      | exact Or.inr ⟨_, rfl⟩
      | split
      | dsimp only

/-- C2: for every tool name and argument dictionary, `call_tool` returns a
single well-formed text content and never lets an exception reach the
transport: a malformed date yields the descriptive failure message as
content, a non-positive `top_k` yields its validation message as content,
and any exception raised inside the body is converted to an `Error:` content
message. -/
theorem call_tool_total (w : World) (name : String) (args : Args) :
    (∃ s, (call_tool w name args).2 = [⟨s⟩])
  ∧ (∀ d, name = "get_notes_per_day" → args.day = some d → strptimeDate d = none →
      (call_tool w name args).2 = [⟨ "Invalid date format: " ++ d⟩])
  ∧ (∀ t k, name = "search" → args.text = some t → args.top_k = some k → k ≤ 0 →
      (call_tool w name args).2 = [⟨ "top_k must be positive"⟩])
  ∧ (∀ tr e, call_tool_body w name args = (tr, .error e) →
      call_tool w name args = (tr, [⟨ "Error: " ++ errStr e⟩])) := by
  refine ⟨?_, ?_, ?_, ?_⟩
  · rcases hb : call_tool_body w name args with ⟨tr, r⟩
    rcases call_tool_body_shape w name args with ⟨s, hs⟩ | ⟨e, he⟩
    · rw [hb] at hs
      have hs2 : r = .ok [⟨s⟩] := hs
      subst hs2
      exact ⟨s, by simp [call_tool, hb]⟩
    · rw [hb] at he
      have he2 : r = .error e := he
      subst he2
      exact ⟨ "Error: " ++ errStr e, by simp [call_tool, hb]⟩
  · intro d hn hday hparse
    subst hn
    simp [call_tool, call_tool_body, hday, hparse]
  · intro t k hn ht hk hk0
    subst hn
    simp [call_tool, call_tool_body, ht, hk, hk0]
  · intro tr e h
    simp [call_tool, h]

/-- Witness for C2 at concrete inputs: a malformed date, a non-positive
`top_k`, and a missing required `text` key (a `KeyError` caught by the
top-level handler). -/
theorem call_tool_total_witness :
    (call_tool w0 "get_notes_per_day" ⟨some "junk", none, none⟩).2
      = [⟨ "Invalid date format: junk"⟩]
    ∧ (call_tool w0 "search" ⟨none, some "q", some 0⟩).2 = [⟨ "top_k must be positive"⟩]
    ∧ call_tool w0 "search" ⟨none, none, none⟩ = ([], [⟨ "Error: \x27text\x27"⟩]) :=
  ⟨(call_tool_total w0 "get_notes_per_day" ⟨some "junk", none, none⟩).2.1 "junk"
      rfl rfl (by decide),
    (call_tool_total w0 "search" ⟨none, some "q", some 0⟩).2.2.1 "q" 0 rfl rfl rfl (by decide),
    (call_tool_total w0 "search" ⟨none, none, none⟩).2.2.2 [] (.keyError "text") (by rfl)⟩

/-- C1: the bearer gate accepts a request iff its Authorization header is
present and is exactly the literal `Bearer ` prefix followed by the
configured credential, compared case-sensitively with no trimming; every
rejected request receives the 401 response whose `WWW-Authenticate`
challenge points at the resource-metadata discovery document, and is not
forwarded to tool dispatch. -/
theorem bearer_gate_spec (cfg : Config) (req : Request) :
    (verify_token cfg req = true ↔
      req.authorization = some (bearerLit ++ cfg.mcpAuthToken))
  ∧ (verify_token cfg req = false →
      handle_mcp cfg req = .rejected "Unauthorized" 401 (challengeHeader cfg))
  ∧ (verify_token cfg req = false → handle_mcp cfg req ≠ .forwarded) := by
  obtain ⟨auth⟩ := req
  refine ⟨?_, ?_, ?_⟩
  · constructor
    · intro hv
      cases auth with
      | none => exact absurd hv (by simp [verify_token])
      | some s =>
        unfold verify_token at hv
        dsimp only at hv
        by_cases hc : (s.isEmpty || !(bearerLit.data.isPrefixOf s.data)) = true
        · rw [if_pos hc] at hv
          exact absurd hv (by simp)
        · rw [if_neg hc] at hv
          have hdrop : s.drop 7 = cfg.mcpAuthToken := eq_of_beq hv
          have hor : (s.isEmpty || !(bearerLit.data.isPrefixOf s.data)) = false :=
            Bool.eq_false_iff.mpr hc
          have hpre : bearerLit.data.isPrefixOf s.data = true := by
            rcases Bool.or_eq_false_iff.mp hor with ⟨h1, h2⟩
            simpa using h2
          obtain ⟨t, ht⟩ := List.isPrefixOf_iff_prefix.mp hpre
          have hs : s.data = bearerLit.data ++ t := ht.symm
          have hdata : cfg.mcpAuthToken.data = t := by
            rw [← hdrop, String.drop_eq, hs]
            have h7 : (7 : Nat) = bearerLit.data.length := rfl
            rw [h7, List.drop_left]
          have : s = bearerLit ++ cfg.mcpAuthToken := by
            apply String.ext
            rw [hs, String.data_append, hdata]
          simp [this]
    · intro h
      simp only [Option.some.injEq] at h ⊢
      cases auth with
      | none => exact absurd h (by simp)
      | some s =>
        have hs : s = bearerLit ++ cfg.mcpAuthToken := by simpa using h
        subst hs
        have hne : (bearerLit ++ cfg.mcpAuthToken) ≠ "" := by
          intro he
          have : (bearerLit ++ cfg.mcpAuthToken).data = [] := by rw [he]
          rw [String.data_append] at this
          exact absurd this (by simp [bearerLit])
        have hemp : (bearerLit ++ cfg.mcpAuthToken).isEmpty = false := by
          rw [Bool.eq_false_iff]
          intro hh
          exact hne ((String.isEmpty_iff _).mp hh)
        have hpre : bearerLit.data.isPrefixOf (bearerLit ++ cfg.mcpAuthToken).data = true := by
          rw [String.data_append]
          exact List.isPrefixOf_iff_prefix.mpr (List.prefix_append _ _)
        have hdrop : (bearerLit ++ cfg.mcpAuthToken).drop 7 = cfg.mcpAuthToken := by
          rw [String.drop_eq, String.data_append]
          have h7 : (7 : Nat) = bearerLit.data.length := rfl
          rw [h7, List.drop_left]
        unfold verify_token
        dsimp only
        rw [hemp, hpre, if_neg (by decide), hdrop]
        exact beq_self_eq_true _
  · intro hv
    simp [handle_mcp, hv]
  · intro hv
    simp [handle_mcp, hv]

/-- Witness for C1: with credential `tok`, the exact header is accepted;
the header `Bearer wrong-token` is rejected with the 401 challenge response
and not forwarded. -/
theorem bearer_gate_spec_witness :
    verify_token cfg0 ⟨some ( "Bearer tok")⟩ = true
    ∧ handle_mcp cfg0 ⟨some ( "Bearer wrong-token")⟩
        = .rejected "Unauthorized" 401 (challengeHeader cfg0)
    ∧ handle_mcp cfg0 ⟨some ( "Bearer wrong-token")⟩ ≠ .forwarded :=
  ⟨(bearer_gate_spec cfg0 ⟨some ( "Bearer tok")⟩).1.mpr (by decide),
    (bearer_gate_spec cfg0 ⟨some ( "Bearer wrong-token")⟩).2.1 (by decide),
    (bearer_gate_spec cfg0 ⟨some ( "Bearer wrong-token")⟩).2.2 (by decide)⟩

/-- C8: the token-exchange endpoint answers every POST, whatever the form
contents (the submitted `code` is never consulted or validated), with the
one fixed configured credential as access token and the fixed ten-year
expiry. -/
theorem token_exchange_fixed (cfg : Config) (form form2 : List (String × String)) :
    (token_exchange cfg form).access_token = cfg.mcpAuthToken
  ∧ (token_exchange cfg form).expires_in = 315360000
  ∧ (token_exchange cfg form).token_type = "Bearer"
  ∧ token_exchange cfg form = token_exchange cfg form2 :=
  ⟨rfl, rfl, rfl, rfl⟩

/-- C9: evaluating `close_pool` at a concrete live pool with two idle and
one checked-out connection: the first call closes every connection, but the
second call on the resulting state raises `PoolError` instead of being an
idempotent no-op, because the pool global is never cleared and the
underlying pool refuses `closeall` on an already closed pool. -/
theorem close_pool_second_call_fails :
    close_pool (some pool0)
      = .ok (some ⟨[⟨0, true⟩, ⟨1, true⟩], [⟨2, true⟩], true⟩)
    ∧ (∀ c ∈ ([⟨0, true⟩, ⟨1, true⟩] : List PConn), c.closed = true)
    ∧ (∀ c ∈ ([⟨2, true⟩] : List PConn), c.closed = true)
    ∧ close_pool (some ⟨[⟨0, true⟩, ⟨1, true⟩], [⟨2, true⟩], true⟩)
        = .error (.poolError "connection pool is closed") := by
  refine ⟨rfl, ?_, ?_, rfl⟩ <;> decide

/-- C10 counterexample: with the process never initialized, the search
operation does not fail with an error stating that the pool is not
initialized — it fails earlier, with the `AttributeError` raised by calling
`embed` on the `None` embedding client, whose cause chain never reaches the
pool error. -/
theorem uninit_search_counterexample :
    (search_notes wUninit "hello" 5).2
      = .error (.attributeError "\x27NoneType\x27 object has no attribute \x27embed\x27")
    ∧ (Err.attributeError "\x27NoneType\x27 object has no attribute \x27embed\x27").rootCause
        ≠ notInitErr :=
  ⟨rfl, by decide⟩

/-- C10 (amended): when `initialize_pool` was never called, `get_connection`
raises the explicit `RuntimeError` stating the pool is not initialized; the
repository operations fail with the terminal retry error whose root cause is
exactly that error; the search operation fails at the embedding step with an
`AttributeError` because the embedding client is likewise uninitialized (so
no operation exhibits undefined behaviour); and returning a connection is a
no-op. -/
theorem uninit_behaviour (w : World) (d : DateYMD) (q : String) (k : Int) (i c : Nat) (b : Bool)
    (hp : w.poolInitialized = false) (hv : w.voyageInitialized = false) :
    get_connection w i = .error notInitErr
  ∧ get_notes_by_day w d = ([], .error (.chained (gvcFailMsg 3) notInitErr))
  ∧ get_all_notes w = ([], .error (.chained (gvcFailMsg 3) notInitErr))
  ∧ (Err.chained (gvcFailMsg 3) notInitErr).rootCause = notInitErr
  ∧ search_notes w q k
      = ([], .error (.attributeError "\x27NoneType\x27 object has no attribute \x27embed\x27"))
  ∧ return_connection w c b = [] := by
  have hgc : ∀ j, get_connection w j = .error notInitErr := fun j => by
    simp [get_connection, hp]
  have hgv : get_valid_connection w 3 = ([], .error (.chained (gvcFailMsg 3) notInitErr)) := by
    have e1 : get_valid_connection w 3 = gvcAux w 3 0 (2 + 1) := rfl
    have e2 : gvcAux w 3 0 (2 + 1) = gvcAux w 3 1 (1 + 1) := by
      rw [gvcAux_succ, hgc 0]; simp
    have e3 : gvcAux w 3 1 (1 + 1) = gvcAux w 3 2 (0 + 1) := by
      rw [gvcAux_succ, hgc 1]; simp
    have e4 : gvcAux w 3 2 (0 + 1) = ([], .error (.chained (gvcFailMsg 3) notInitErr)) := by
      rw [gvcAux_succ, hgc 2]; simp
    rw [e1, e2, e3, e4]
  refine ⟨hgc i, ?_, ?_, rfl, ?_, ?_⟩
  · unfold get_notes_by_day
    rw [hgv]
  · unfold get_all_notes
    rw [hgv]
  · simp [search_notes, hv]
  · simp [return_connection, hp]

/-- Witness for C10 at the concrete uninitialized world. -/
theorem uninit_behaviour_witness :
    get_connection wUninit 0 = .error notInitErr
    ∧ get_notes_by_day wUninit ⟨2024, 1, 15⟩
        = ([], .error (.chained (gvcFailMsg 3) notInitErr))
    ∧ return_connection wUninit 0 true = [] :=
  ⟨(uninit_behaviour wUninit ⟨2024, 1, 15⟩ "q" 5 0 0 true rfl rfl).1,
    (uninit_behaviour wUninit ⟨2024, 1, 15⟩ "q" 5 0 0 true rfl rfl).2.1,
    (uninit_behaviour wUninit ⟨2024, 1, 15⟩ "q" 5 0 0 true rfl rfl).2.2.2.2.2⟩

end NeronMCP
